import Mathlib

/-!
Shallow embedding of the adaptive compression selection engine of
`compressor.py` together with the quality-gate logic of `quality_gates.py`
from the pdf-ultra-compressor repository.

File contents are modelled as byte lists (what `shutil.copy2` copies),
sizes are byte counts, and scores, reductions, thresholds and PSNR values
are exact rationals standing for the Python floats (all the arithmetic the
claims talk about is exact decimal arithmetic).  Values produced by the
external toolchain (sharpness metrics, PSNR measurements, rasterized
pages) enter the model as oracle parameters, mirroring the fact that the
Python code obtains them from subprocesses and optional imports; an oracle
returning `none` models the corresponding `try/except` path yielding
`None`.
-/

/-- A file's contents as the list of its bytes; `shutil.copy2` copies these
bytes verbatim to the destination path. -/
structure FileData where
  bytes : List Nat
  deriving DecidableEq

/-- Size in bytes, as returned by `Path.stat().st_size`. -/
def FileData.size (f : FileData) : Nat := f.bytes.length

/-- One generated candidate: an entry of the `candidates` list built in
`compress_pdf` — the strategy name and the temp file it produced, together
with whether the temp file still exists on disk (`f.exists()`) and its
temp path (used by the cleanup loop). -/
structure Cand where
  method : String
  file : FileData
  onDisk : Bool
  path : String
  deriving DecidableEq

/-- The three content modes produced by `_detect_content_profile`
(the strings 'bitonal', 'grayscale', 'color'). -/
inductive Mode where
  | bitonal
  | grayscale
  | color
  deriving DecidableEq

/-- The `counts` dictionary built by `_detect_content_profile`. -/
structure ProfileCounts where
  color : Nat
  grayscaleLike : Nat
  bitonalLike : Nat
  total : Nat
  deriving DecidableEq

/-- The content-profile dictionary `{'mode': ..., 'counts': ...}`. -/
structure Profile where
  mode : Mode
  counts : ProfileCounts
  deriving DecidableEq

/-- Environment of one `_select_best_result` run: the measured sharpness of
the original (`_compute_sharpness_metric(original)`, already folded with
the surrounding `try/except`), the sharpness oracle for candidate files,
the detected content profile `self._content_profile`, and the two feature
flags read inside the loop. -/
structure SelEnv where
  baseSharpRaw : Option ℚ
  candSharp : FileData → Option ℚ
  profile : Option Profile
  preferSharpness : Bool
  advancedRaster : Bool

/-- Python's `expr or None` applied to an optional float: a result of `0.0`
is falsy and collapses to `None`. -/
def truthy (x : Option ℚ) : Option ℚ :=
  match x with
  | some v => if v = 0 then none else some v
  | none => none

/-- `reduction = ((original_size - size) / original_size) * 100 if
original_size > 0 else 0.0` from `_select_best_result`. -/
def reductionPercent (origSize size : Nat) : ℚ :=
  if 0 < origSize then (((origSize : ℚ) - (size : ℚ)) / (origSize : ℚ)) * 100 else 0

/-- The piecewise reduction-based heuristic score of `_select_best_result`
(lines 840–847), mirroring the Python `if/elif/elif/else` chain. -/
def heuristicScore (reduction : ℚ) : ℚ :=
  if reduction < 5 then 70 + reduction
  else if 5 ≤ reduction ∧ reduction ≤ 50 then 80 + (reduction - 5) / 45 * 20
  else if 50 < reduction ∧ reduction ≤ 80 then 95 - (reduction - 50) / 30 * 15
  else 60 - (reduction - 80)

/-- The strategy-prior bonuses of `_select_best_result` (lines 849–854). -/
def applyStrategyPrior (method : String) (score : ℚ) : ℚ :=
  if method = "conservative" then score + 10
  else if method = "high_quality" then score + 8
  else if method = "balanced" then score + 5
  else score

/-- `prof and prof.get('mode') in ('grayscale', 'bitonal')`. -/
def profGrayOrBitonal (prof : Option Profile) : Bool :=
  match prof with
  | some p => p.mode == Mode.grayscale || p.mode == Mode.bitonal
  | none => false

/-- Sharpness penalty and optional sharpness reward of
`_select_best_result` (lines 859–874); applied only when both the original
and the candidate produced a (truthy) sharpness value. -/
def sharpnessAdjust (preferSharp : Bool) (baseS candS : Option ℚ) (score : ℚ) : ℚ :=
  match baseS, candS with
  | some bs, some cs =>
      let dropFrac := max 0 ((bs - cs) / (bs + 1 / 1000000))
      let penalty := min 20 (dropFrac * 40)
      let s1 := if 0 < penalty then score - penalty else score
      if preferSharp ∧ bs < cs then
        s1 + min 10 ((cs - bs) / (bs + 1 / 1000000) * 20)
      else s1
  | _, _ => score

/-- Content-aware +6 boost for anti-noise methods on grayscale/bitonal
documents (lines 876–880). -/
def contentBoost (prof : Option Profile) (method : String) (score : ℚ) : ℚ :=
  if profGrayOrBitonal prof = true ∧
      method ∈ ["text_preserve", "grayscale_pref", "conservative", "bitonal_ccitt"] then
    score + 6
  else score

/-- +2.5 boost for pixel-pipeline strategies when advanced raster is
enabled (lines 882–884). -/
def advancedBoost (advEnabled : Bool) (method : String) (score : ℚ) : ℚ :=
  if advEnabled = true ∧ method ∈ ["advanced_raster", "mrc_light_raster"] then
    score + 5 / 2
  else score

/-- The full per-candidate score computed by the body of the evaluation
loop of `_select_best_result`, stage by stage in source order: the
reduction heuristic, the strategy prior, the zeroing of candidates larger
than the original, the sharpness adjustment, the content-mode boost and
the advanced-raster boost. -/
def candScore (origSize : Nat) (env : SelEnv) (c : Cand) : ℚ :=
  advancedBoost env.advancedRaster c.method
    (contentBoost env.profile c.method
      (sharpnessAdjust env.preferSharpness (truthy env.baseSharpRaw)
        (truthy (env.candSharp c.file))
        (if reductionPercent origSize c.file.size < 0 then 0
         else applyStrategyPrior c.method
            (heuristicScore (reductionPercent origSize c.file.size)))))

/-- The running best of `_select_best_result` and the result dictionaries
built by the quality gates: method, file, score, reduction and the metric
fields that the gates may attach. -/
structure BestResult where
  method : String
  file : FileData
  score : ℚ
  reduction : ℚ
  psnrDb : Option ℚ
  ssimV : Option ℚ
  lpipsV : Option ℚ
  deriving DecidableEq

/-- One iteration of the evaluation loop of `_select_best_result`: skip
candidates whose temp file no longer exists, otherwise replace the running
best exactly when the candidate's score strictly exceeds the best score. -/
def selectStep (origSize : Nat) (env : SelEnv) (acc : Option BestResult × ℚ) (c : Cand) :
    Option BestResult × ℚ :=
  if c.onDisk = false then acc
  else if candScore origSize env c > acc.2 then
    (some ⟨c.method, c.file, candScore origSize env c,
      reductionPercent origSize c.file.size, none, none, none⟩, candScore origSize env c)
  else acc

/-- `_select_best_result`: `None` on an empty candidate list, otherwise the
fold of the evaluation loop starting from `best = None, best_score = -1.0`. -/
def selectBestResult (orig : FileData) (env : SelEnv) (cands : List Cand) :
    Option BestResult :=
  match cands with
  | [] => none
  | _ => (cands.foldl (selectStep orig.size env) (none, -1)).1

/-- Piecewise scoring curve transcribed from the spec's words in §4.4
("r < 5: score = 70 + r; 5 ≤ r ≤ 50: score = 80 + (r−5)/45·20;
50 < r ≤ 80: score = 95 − (r−50)/30·15; r > 80: score = 60 − (r−80)"),
to be compared with `heuristicScore`. -/
def specBaseScore (r : ℚ) : ℚ :=
  if r < 5 then 70 + r
  else if 5 ≤ r ∧ r ≤ 50 then 80 + (r - 5) / 45 * 20
  else if 50 < r ∧ r ≤ 80 then 95 - (r - 50) / 30 * 15
  else if 80 < r then 60 - (r - 80)
  else 0

/-- Strategy priors transcribed from the spec's words in §4.4 ("+10 for the
structural/lossless profile, +8 for the high-fidelity profile, +5 for the
balanced profile"), with the profile names resolved to the source's
strategy names. -/
def specStrategyPrior (method : String) : ℚ :=
  if method = "conservative" then 10
  else if method = "high_quality" then 8
  else if method = "balanced" then 5
  else 0

/-- The content-mode-dependent PSNR threshold of `_apply_psnr_quality_gate`
(lines 988–995): default 35 dB, 30 dB for bitonal, 33 dB for grayscale. -/
def psnrThreshold (prof : Option Profile) : ℚ :=
  match prof with
  | some p =>
      match p.mode with
      | Mode.bitonal => 30
      | Mode.grayscale => 33
      | Mode.color => 35
  | none => 35

/-- The comparison `psnr >= THRESHOLD_DB` used by
`_apply_psnr_quality_gate` and (as `metrics.psnr >= psnr_threshold`) by
`QualityGateChecker.evaluate_quality`. -/
def psnrPassedAt (t p : ℚ) : Bool := decide (t ≤ p)

/-- The PSNR gate decision at the content-mode-dependent threshold. -/
def psnrGatePasses (prof : Option Profile) (p : ℚ) : Bool :=
  psnrPassedAt (psnrThreshold prof) p

/-- `next((p for m, p in candidates if m == alt and p.exists()), None)`:
the first still-existing candidate file produced by the named strategy. -/
def findAlt (cands : List Cand) (alt : String) : Option FileData :=
  (cands.find? (fun c => c.method == alt && c.onDisk)).map (fun c => c.file)

/-- One alternative's PSNR check in the fallback loop of
`_apply_psnr_quality_gate`: an unmeasurable PSNR (`alt_psnr is None`) or a
PSNR below the threshold means this alternative is skipped (`none`);
otherwise it is returned as a fresh result with score 96.0 and reduction
0.0. -/
def tryAltPsnrMeasure (t : ℚ) (alt : String) (f : FileData) : Option ℚ → Option BestResult
  | none => none
  | some p =>
      if psnrPassedAt t p then some ⟨alt, f, 96, 0, some p, none, none⟩ else none

/-- One iteration of the fallback loop: a missing alternative file
(`if not alt_file: continue`) is skipped, otherwise its PSNR is measured
and checked. -/
def tryAltPsnrStep (t : ℚ) (alt : String) (psnrOf : FileData → Option ℚ) :
    Option FileData → Option BestResult
  | none => none
  | some f => tryAltPsnrMeasure t alt f (psnrOf f)

/-- The fallback loop of `_apply_psnr_quality_gate` (lines 1011–1022):
walk the fixed alternative order and return the first alternative that
exists and whose measurable PSNR meets the threshold. -/
def tryAltsPsnr (psnrOf : FileData → Option ℚ) (cands : List Cand) (t : ℚ) :
    List String → Option BestResult
  | [] => none
  | alt :: rest =>
      match tryAltPsnrStep t alt psnrOf (findAlt cands alt) with
      | some r => some r
      | none => tryAltsPsnr psnrOf cands t rest

/-- The gate decision of `_apply_psnr_quality_gate` on the measured PSNR
of the selected candidate: an unmeasurable PSNR keeps the candidate
unchanged; a PSNR meeting the threshold raises the score to
`max(score, 95.0)` and records the PSNR; otherwise the safer alternatives
are tried. -/
def psnrGateOnBest (prof : Option Profile) (psnrOf : FileData → Option ℚ)
    (cands : List Cand) (b : BestResult) : Option ℚ → Option BestResult
  | none => some b
  | some p =>
      if psnrGatePasses prof p then
        some ⟨b.method, b.file, max b.score 95, b.reduction, some p, b.ssimV, b.lpipsV⟩
      else tryAltsPsnr psnrOf cands (psnrThreshold prof) ["high_quality", "conservative"]

/-- `_apply_psnr_quality_gate`: `None` stays `None` (preserve the
original); otherwise measure the selected candidate's PSNR and decide. -/
def applyPsnrQualityGate (prof : Option Profile) (psnrOf : FileData → Option ℚ)
    (cands : List Cand) : Option BestResult → Option BestResult
  | none => none
  | some b => psnrGateOnBest prof psnrOf cands b (psnrOf b.file)

/-- The final result record assembled by `compress_pdf`: the bytes written
to the output path, `reduction_percent`, `winner_method`, `quality_score`. -/
structure CompressResult where
  finalBytes : List Nat
  reductionPct : ℚ
  winnerMethod : String
  qualityScore : ℚ
  deriving DecidableEq

/-- The output step of `compress_pdf` (lines 267–306): copy the winning
candidate's bytes to the output path and compute the reduction from the
MB sizes, or — when the gate preserved the original — copy the original
with `reduction_percent = 0.0`, `winner_method = "no_change"` and
`quality_score = 100.0`. -/
def compressOutput (orig : FileData) : Option BestResult → CompressResult
  | some b =>
      ⟨b.file.bytes,
        (if 0 < (orig.size : ℚ) / (1024 * 1024) then
          ((orig.size : ℚ) / (1024 * 1024) - (b.file.size : ℚ) / (1024 * 1024)) /
            ((orig.size : ℚ) / (1024 * 1024)) * 100
         else 0),
        b.method, b.score⟩
  | none => ⟨orig.bytes, 0, "no_change", 100⟩

/-- The selection-plus-gate-plus-output core of `compress_pdf` (the default
path, lines 259–306, with the PSNR-only quality gate): select the best
candidate, run the gate, then write the output. -/
def compressPdfCore (orig : FileData) (env : SelEnv) (psnrOf : FileData → Option ℚ)
    (cands : List Cand) : CompressResult :=
  compressOutput orig
    (applyPsnrQualityGate env.profile psnrOf cands (selectBestResult orig env cands))

/-- The cleanup loop at the end of the `try` block of `compress_pdf`
(lines 308–314): unlink every candidate temp file that still exists. -/
def cleanupTemps (temps : List String) (cands : List Cand) : List String :=
  temps.filter (fun p => !(cands.any (fun c => c.path == p)))

/-- Outcome of one `compress_pdf` run: the normal result record, or the
error record produced by the `except` handler. -/
inductive RunOutcome where
  | ok : CompressResult → RunOutcome
  | errorResult : RunOutcome
  deriving DecidableEq

/-- `compress_pdf` with its temp-file effects: after generation each
candidate's temp path exists.  `raisesInBody` models an exception raised
inside the `try` block between candidate generation and the cleanup loop
(e.g. from `stat` or `shutil.copy2`); control then jumps to the `except
Exception` handler at line 325, which returns the error record without
running the cleanup loop.  Without an exception the run produces the
normal result and then runs the cleanup loop over the candidates. -/
def compressPdfWithTemps (orig : FileData) (env : SelEnv) (psnrOf : FileData → Option ℚ)
    (cands : List Cand) (raisesInBody : Bool) : RunOutcome × List String :=
  let temps := cands.map (fun c => c.path)
  match raisesInBody with
  | true => (RunOutcome.errorResult, temps)
  | false => (RunOutcome.ok (compressPdfCore orig env psnrOf cands), cleanupTemps temps cands)

/-- `QualityGateConfig.__init__` of `quality_gates.py`: thresholds, enabled
flags and the overall-combination policy. -/
structure GateConfig where
  psnrThresholdC : ℚ
  psnrEnabled : Bool
  ssimThreshold : ℚ
  ssimEnabled : Bool
  lpipsThreshold : ℚ
  lpipsEnabled : Bool
  failOnAnyGate : Bool
  requireMajority : Bool
  deriving DecidableEq

/-- The default configuration values set in `QualityGateConfig.__init__`. -/
def defaultGateConfig : GateConfig :=
  ⟨35, true, 85 / 100, true, 15 / 100, false, false, true⟩

/-- The `QualityMetrics` container of `quality_gates.py` (per-page details
omitted: the claims are about the averaged values and the gate lists). -/
structure QMetrics where
  psnr : Option ℚ
  ssim : Option ℚ
  lpips : Option ℚ
  psnrPassed : Option Bool
  ssimPassed : Option Bool
  lpipsPassed : Option Bool
  overallPassed : Bool
  gatesEvaluated : List String
  gatesPassed : List String
  gatesFailed : List String
  deriving DecidableEq

/-- A freshly constructed `QualityMetrics()`. -/
def emptyQMetrics : QMetrics := ⟨none, none, none, none, none, none, false, [], [], []⟩

/-- Average of a list of metric values (`sum(values) / len(values)`). -/
def listAvg (xs : List ℚ) : ℚ := xs.sum / (xs.length : ℚ)

/-- Append one evaluated gate with its pass/fail outcome to the bookkeeping
lists of the metrics record. -/
def recordGate (m : QMetrics) (name : String) (passed : Bool) : QMetrics :=
  { m with
    gatesEvaluated := m.gatesEvaluated ++ [name]
    gatesPassed := if passed then m.gatesPassed ++ [name] else m.gatesPassed
    gatesFailed := if passed then m.gatesFailed else m.gatesFailed ++ [name] }

/-- `QualityGateChecker._evaluate_overall_result`: no gates evaluated means
pass; otherwise all gates, a strict majority, or any gate, per the config. -/
def evalOverall (cfg : GateConfig) (m : QMetrics) : Bool :=
  match m.gatesEvaluated with
  | [] => true
  | _ =>
      if cfg.failOnAnyGate then m.gatesPassed.length == m.gatesEvaluated.length
      else if cfg.requireMajority then
        decide ((m.gatesEvaluated.length : ℚ) / 2 < (m.gatesPassed.length : ℚ))
      else decide (0 < m.gatesPassed.length)

/-- `QualityGateChecker.evaluate_quality`: `rasterOk` is whether both PDFs
rasterized to at least one page; the three lists are the per-page metric
values that the enabled metrics managed to compute (a metric whose
dependency is missing, whose computation failed on every page, or which is
disabled contributes an empty list).  Rasterization failure fails open
with a fresh metrics record marked passed; otherwise each nonempty value
list is averaged, compared with its threshold and recorded, and the
overall result is combined by `_evaluate_overall_result`. -/
def evaluateQuality (cfg : GateConfig) (rasterOk : Bool)
    (psnrVals ssimVals lpipsVals : List ℚ) : Bool × QMetrics :=
  match rasterOk with
  | false => (true, { emptyQMetrics with overallPassed := true })
  | true =>
      let m0 := emptyQMetrics
      let m1 :=
        match (if cfg.psnrEnabled then psnrVals else []) with
        | [] => m0
        | vs =>
            let v := listAvg vs
            let ok := psnrPassedAt cfg.psnrThresholdC v
            recordGate { m0 with psnr := some v, psnrPassed := some ok } "psnr" ok
      let m2 :=
        match (if cfg.ssimEnabled then ssimVals else []) with
        | [] => m1
        | vs =>
            let v := listAvg vs
            let ok : Bool := decide (cfg.ssimThreshold ≤ v)
            recordGate { m1 with ssim := some v, ssimPassed := some ok } "ssim" ok
      let m3 :=
        match (if cfg.lpipsEnabled then lpipsVals else []) with
        | [] => m2
        | vs =>
            let v := listAvg vs
            let ok : Bool := decide (v ≤ cfg.lpipsThreshold)
            recordGate { m2 with lpips := some v, lpipsPassed := some ok } "lpips" ok
      let overall := evalOverall cfg m3
      (overall, { m3 with overallPassed := overall })

/-- The metric-attachment statements of `_apply_advanced_quality_gates` and
`_try_safer_alternatives`: copy each computed metric value into the result
dictionary. -/
def attachMetrics (b : BestResult) (m : QMetrics) : BestResult :=
  let b1 :=
    match m.psnr with
    | some v => { b with psnrDb := some v }
    | none => b
  let b2 :=
    match m.ssim with
    | some v => { b1 with ssimV := some v }
    | none => b1
  match m.lpips with
  | some v => { b2 with lpipsV := some v }
  | none => b2

/-- One iteration of `_try_safer_alternatives`: a missing alternative file
is skipped, an alternative failing the full gate is skipped, and a passing
alternative is returned as a fresh result with score 96.0 and reduction
0.0, metrics attached. -/
def trySaferStep (evalO : FileData → Bool × QMetrics) (alt : String) :
    Option FileData → Option BestResult
  | none => none
  | some f =>
      if (evalO f).1 then some (attachMetrics ⟨alt, f, 96, 0, none, none, none⟩ (evalO f).2)
      else none

/-- `_try_safer_alternatives`: walk the fixed alternative order and return
the first existing alternative that passes the full gate; `None` when no
alternative passes. -/
def trySaferAlternatives (evalO : FileData → Bool × QMetrics) (cands : List Cand) :
    List String → Option BestResult
  | [] => none
  | alt :: rest =>
      match trySaferStep evalO alt (findAlt cands alt) with
      | some r => some r
      | none => trySaferAlternatives evalO cands rest

/-- The decision of `_apply_advanced_quality_gates` on the evaluated
`(passed, metrics)` pair of the selected candidate: attach the metrics,
raise the score to `max(score, 95.0)` on pass, and fall back to
`_try_safer_alternatives` on failure. -/
def advancedGateOnBest (evalO : FileData → Bool × QMetrics) (cands : List Cand)
    (b : BestResult) : Bool × QMetrics → Option BestResult
  | (true, m) => some { attachMetrics b m with score := max (attachMetrics b m).score 95 }
  | (false, _) => trySaferAlternatives evalO cands ["high_quality", "conservative"]

/-- `_apply_advanced_quality_gates`: `None` stays `None`; otherwise
evaluate the advanced gate on the selected candidate's file (`evalO` is
`evaluate_quality` specialised to this run's original) and decide. -/
def applyAdvancedQualityGates (evalO : FileData → Bool × QMetrics) (cands : List Cand) :
    Option BestResult → Option BestResult
  | none => none
  | some b => advancedGateOnBest evalO cands b (evalO b.file)

/-- One RGB pixel of a rasterized sample page. -/
structure Pixel where
  r : Nat
  g : Nat
  b : Nat
  deriving DecidableEq

/-- A rasterized sample page as its list of pixels. -/
abbrev Img := List Pixel

/-- The colorfulness proxy of `_detect_content_profile`: mean over the
pixels of `|r−g| + |g−b| + |b−r|`, normalized by `3·255`. -/
def colorfulness (img : Img) : ℚ :=
  ((img.map (fun p => |(p.r : ℚ) - (p.g : ℚ)| + |(p.g : ℚ) - (p.b : ℚ)| +
    |(p.b : ℚ) - (p.r : ℚ)|)).sum / (img.length : ℚ)) / (3 * 255)

/-- The luma `0.299·r + 0.587·g + 0.114·b` of `_detect_content_profile`. -/
def luma (p : Pixel) : ℚ :=
  299 / 1000 * (p.r : ℚ) + 587 / 1000 * (p.g : ℚ) + 114 / 1000 * (p.b : ℚ)

/-- The bitonal proxy of `_detect_content_profile`: the fraction of luma
samples in the extreme tails exceeds 0.85 and the midtone fraction is
below 0.15. -/
def isBitonalLike (img : Img) : Bool :=
  let total := img.length
  let low := (img.filter (fun p => decide (luma p < 30))).length
  let high := (img.filter (fun p => decide (225 < luma p))).length
  let mid := total - low - high
  decide (85 / 100 < ((low : ℚ) + (high : ℚ)) / (total : ℚ)) &&
    decide ((mid : ℚ) / (total : ℚ) < 15 / 100)

/-- The per-page counting loop of `_detect_content_profile`: unreadable
pages (`read_rgb` returned `None`) are skipped; readable pages bump the
total, are classified grayscale-like (colorfulness below 0.02) or color,
and are additionally counted bitonal-like when the bitonal proxy holds. -/
def countPage (acc : ProfileCounts) (page : Option Img) : ProfileCounts :=
  match page with
  | none => acc
  | some img =>
      let acc1 := { acc with total := acc.total + 1 }
      let acc2 :=
        if colorfulness img < 2 / 100 then
          { acc1 with grayscaleLike := acc1.grayscaleLike + 1 }
        else { acc1 with color := acc1.color + 1 }
      if isBitonalLike img then { acc2 with bitonalLike := acc2.bitonalLike + 1 }
      else acc2

/-- The aggregation at the end of `_detect_content_profile` (lines
404–410): default mode color, bitonal when at least half of the sampled
pages are bitonal-like, else grayscale when at least half are
grayscale-like. -/
def classifyCounts (c : ProfileCounts) : Mode :=
  if (1 / 2 : ℚ) ≤ (c.bitonalLike : ℚ) / (c.total : ℚ) then Mode.bitonal
  else if (1 / 2 : ℚ) ≤ (c.grayscaleLike : ℚ) / (c.total : ℚ) then Mode.grayscale
  else Mode.color

/-- `_detect_content_profile`: `None` when Ghostscript is missing, when
rasterization produced no pages, or when numpy is unavailable; otherwise
count the readable sample pages and return `None` when none could be read,
else the classified profile with its counts. -/
def detectContentProfile (gsOk rasterOk npOk : Bool) (pages : List (Option Img)) :
    Option Profile :=
  if gsOk = false then none
  else if rasterOk = false then none
  else if npOk = false then none
  else if (pages.foldl countPage ⟨0, 0, 0, 0⟩).total = 0 then none
  else some ⟨classifyCounts (pages.foldl countPage ⟨0, 0, 0, 0⟩),
    pages.foldl countPage ⟨0, 0, 0, 0⟩⟩

theorem sharpnessAdjust_none_left (ps : Bool) (cs : Option ℚ) (s : ℚ) :
    sharpnessAdjust ps none cs s = s := by
  cases cs <;> rfl

theorem sharpnessAdjust_none_right (ps : Bool) (bs : Option ℚ) (s : ℚ) :
    sharpnessAdjust ps bs none s = s := by
  cases bs <;> rfl

/-- C5: for every candidate, the reduction-based base score computed by
`_select_best_result` equals the spec's piecewise curve (70+r for r<5;
80+(r−5)/45·20 for 5≤r≤50; 95−(r−50)/30·15 for 50<r≤80; 60−(r−80) for
r>80), and the strategy prior then adds exactly +10 for the
structural/lossless (`conservative`) profile, +8 for the high-fidelity
(`high_quality`) profile and +5 for the `balanced` profile. -/
theorem heuristicScore_eq_specBase (r : ℚ) : heuristicScore r = specBaseScore r := by
  unfold heuristicScore specBaseScore
  rcases lt_or_le r 5 with h1 | h1
  · rw [if_pos h1, if_pos h1]
  rw [if_neg (not_lt.mpr h1), if_neg (not_lt.mpr h1)]
  rcases le_or_lt r 50 with h2 | h2
  · rw [if_pos ⟨h1, h2⟩, if_pos ⟨h1, h2⟩]
  have hn2 : ¬(5 ≤ r ∧ r ≤ 50) := fun hc => absurd h2 (not_lt.mpr hc.2)
  rw [if_neg hn2, if_neg hn2]
  rcases le_or_lt r 80 with h3 | h3
  · rw [if_pos ⟨h2, h3⟩, if_pos ⟨h2, h3⟩]
  have hn3 : ¬(50 < r ∧ r ≤ 80) := fun hc => absurd h3 (not_lt.mpr hc.2)
  rw [if_neg hn3, if_neg hn3, if_pos h3]

theorem applyStrategyPrior_eq (method : String) (s : ℚ) :
    applyStrategyPrior method s = s + specStrategyPrior method := by
  unfold applyStrategyPrior specStrategyPrior
  split_ifs <;> ring

/-- C5: for every candidate, the reduction-based base score computed by
`_select_best_result` equals the spec's piecewise curve (70+r for r<5;
80+(r−5)/45·20 for 5≤r≤50; 95−(r−50)/30·15 for 50<r≤80; 60−(r−80) for
r>80), and the strategy prior then adds exactly +10 for the
structural/lossless (`conservative`) profile, +8 for the high-fidelity
(`high_quality`) profile and +5 for the `balanced` profile. -/
theorem base_score_and_prior_match_spec (r : ℚ) (method : String) :
    applyStrategyPrior method (heuristicScore r) = specBaseScore r + specStrategyPrior method := by
  rw [applyStrategyPrior_eq, heuristicScore_eq_specBase]

/-- C3: with zero candidates, `compress_pdf` writes a byte-for-byte copy of
the input to the output path and reports `reduction_percent = 0.0` and
`winner_method = "no_change"` (with `quality_score = 100.0`). -/
theorem zero_candidates_preserve_original (orig : FileData) (env : SelEnv)
    (psnrOf : FileData → Option ℚ) :
    (compressPdfCore orig env psnrOf []).finalBytes = orig.bytes ∧
    (compressPdfCore orig env psnrOf []).reductionPct = 0 ∧
    (compressPdfCore orig env psnrOf []).winnerMethod = "no_change" := by
  exact ⟨rfl, rfl, rfl⟩

/-- C9: the PSNR gate comparison is antitone in the threshold — for
thresholds `t1 ≤ t2`, a candidate passing at `t2` also passes at `t1`, so
raising the threshold can only turn Passed into Failed. -/
theorem psnr_gate_antitone_in_threshold (t1 t2 p : ℚ) (h12 : t1 ≤ t2)
    (hp : psnrPassedAt t2 p = true) : psnrPassedAt t1 p = true := by
  simp only [psnrPassedAt, decide_eq_true_eq] at hp ⊢
  linarith

theorem psnr_gate_antitone_witness : psnrPassedAt 30 40 = true :=
  psnr_gate_antitone_in_threshold 30 35 40 (by norm_num) (by decide)

/-- C4: the PSNR quality gate compares against 35 dB for unclassified or
color documents, 33 dB for grayscale and 30 dB for bitonal; consequently a
measured PSNR `p` with `30 ≤ p < 35` passes the gate under a bitonal
profile and fails it under no profile or a color profile. -/
theorem psnr_threshold_content_mode :
    psnrThreshold none = 35 ∧
    (∀ c : ProfileCounts, psnrThreshold (some ⟨Mode.color, c⟩) = 35) ∧
    (∀ c : ProfileCounts, psnrThreshold (some ⟨Mode.grayscale, c⟩) = 33) ∧
    (∀ c : ProfileCounts, psnrThreshold (some ⟨Mode.bitonal, c⟩) = 30) ∧
    (∀ (c : ProfileCounts) (p : ℚ), 30 ≤ p → p < 35 →
      psnrGatePasses (some ⟨Mode.bitonal, c⟩) p = true ∧
      psnrGatePasses none p = false ∧
      psnrGatePasses (some ⟨Mode.color, c⟩) p = false) := by
  refine ⟨rfl, fun c => rfl, fun c => rfl, fun c => rfl, fun c p h30 h35 => ⟨?_, ?_, ?_⟩⟩ <;>
    simp only [psnrGatePasses, psnrPassedAt, psnrThreshold, decide_eq_true_eq,
      decide_eq_false_iff_not, not_le] <;> linarith

theorem psnr_threshold_content_mode_witness :
    psnrGatePasses (some ⟨Mode.bitonal, ⟨0, 0, 0, 0⟩⟩) 32 = true ∧
    psnrGatePasses none 32 = false ∧
    psnrGatePasses (some ⟨Mode.color, ⟨0, 0, 0, 0⟩⟩) 32 = false :=
  psnr_threshold_content_mode.2.2.2.2 ⟨0, 0, 0, 0⟩ 32 (by norm_num) (by norm_num)

/-- C2 counterexample: the claim "a negative reduction forces the final
score to 0" is false — with a grayscale profile, the `conservative`
candidate of size 4 against an original of size 2 has reduction −100%, the
score is zeroed, but the content-mode boost is applied afterwards and the
final score is 6, not 0. -/
theorem negative_reduction_final_score_nonzero :
    reductionPercent 2 (FileData.size ⟨[0, 0, 0, 0]⟩) < 0 ∧
    candScore 2 ⟨none, fun _ => none, some ⟨Mode.grayscale, ⟨0, 1, 0, 1⟩⟩, false, false⟩
      ⟨"conservative", ⟨[0, 0, 0, 0]⟩, true, "t"⟩ = 6 := by
  constructor
  · norm_num [reductionPercent, FileData.size]
  · norm_num [candScore, reductionPercent, FileData.size, heuristicScore,
      applyStrategyPrior, truthy, sharpnessAdjust, contentBoost, advancedBoost,
      profGrayOrBitonal]

/-- C2 (amended): a negative reduction forces the score to 0 at the point
of the check — immediately after the strategy prior and before the
sharpness, content-mode and advanced-raster adjustments — so the final
score is 0 whenever none of those later adjustments applies. -/
theorem negative_reduction_zeroes_before_adjustments (origSize : Nat) (env : SelEnv)
    (c : Cand)
    (hneg : reductionPercent origSize c.file.size < 0)
    (hsharp : truthy env.baseSharpRaw = none ∨ truthy (env.candSharp c.file) = none)
    (hcontent : ¬(profGrayOrBitonal env.profile = true ∧
      c.method ∈ ["text_preserve", "grayscale_pref", "conservative", "bitonal_ccitt"]))
    (hadv : ¬(env.advancedRaster = true ∧ c.method ∈ ["advanced_raster", "mrc_light_raster"])) :
    candScore origSize env c = 0 := by
  unfold candScore
  rw [if_pos hneg]
  rcases hsharp with h | h
  · rw [h, sharpnessAdjust_none_left]
    unfold contentBoost advancedBoost
    rw [if_neg hcontent, if_neg hadv]
  · rw [h, sharpnessAdjust_none_right]
    unfold contentBoost advancedBoost
    rw [if_neg hcontent, if_neg hadv]

theorem negative_reduction_zeroes_witness :
    candScore 2 ⟨none, fun _ => none, none, false, false⟩
      ⟨"aggressive_safe", ⟨[0, 0, 0, 0]⟩, true, "t"⟩ = 0 :=
  negative_reduction_zeroes_before_adjustments 2
    ⟨none, fun _ => none, none, false, false⟩
    ⟨"aggressive_safe", ⟨[0, 0, 0, 0]⟩, true, "t"⟩
    (by norm_num [reductionPercent, FileData.size]) (Or.inl rfl)
    (by simp) (by simp)

theorem attachMetrics_method (b : BestResult) (m : QMetrics) :
    (attachMetrics b m).method = b.method := by
  unfold attachMetrics
  cases m.psnr <;> cases m.ssim <;> cases m.lpips <;> rfl

theorem attachMetrics_file (b : BestResult) (m : QMetrics) :
    (attachMetrics b m).file = b.file := by
  unfold attachMetrics
  cases m.psnr <;> cases m.ssim <;> cases m.lpips <;> rfl

theorem attachMetrics_score (b : BestResult) (m : QMetrics) :
    (attachMetrics b m).score = b.score := by
  unfold attachMetrics
  cases m.psnr <;> cases m.ssim <;> cases m.lpips <;> rfl

/-- C6: when the quality assessment cannot produce a metric value the gate
fails open.  (1) If `_compute_average_psnr` yields no PSNR for the
selected candidate, the PSNR gate returns the selected candidate
unchanged.  (2) If rasterization fails for either side,
`evaluate_quality` reports pass.  (3) If zero pages produce metric
values, `evaluate_quality` reports pass.  (4) When the advanced gate
evaluation reports pass (as it does whenever it fails open), the selected
candidate's method and file are kept.  All embedded functions are total:
the corresponding Python paths catch their exceptions internally. -/
theorem quality_gate_fails_open :
    (∀ (prof : Option Profile) (psnrOf : FileData → Option ℚ) (cands : List Cand)
        (b : BestResult), psnrOf b.file = none →
        applyPsnrQualityGate prof psnrOf cands (some b) = some b) ∧
    (∀ (cfg : GateConfig) (pv sv lv : List ℚ), (evaluateQuality cfg false pv sv lv).1 = true) ∧
    (∀ cfg : GateConfig, (evaluateQuality cfg true [] [] []).1 = true) ∧
    (∀ (evalO : FileData → Bool × QMetrics) (cands : List Cand) (b : BestResult)
        (m : QMetrics), evalO b.file = (true, m) →
        ∃ b', applyAdvancedQualityGates evalO cands (some b) = some b' ∧
          b'.method = b.method ∧ b'.file = b.file) := by
  refine ⟨?_, ?_, ?_, ?_⟩
  · intro prof psnrOf cands b h
    simp only [applyPsnrQualityGate, h, psnrGateOnBest]
  · intro cfg pv sv lv
    rfl
  · intro cfg
    obtain ⟨pt, pe, st, se, lt, le, fa, rm⟩ := cfg
    cases pe <;> cases se <;> cases le <;> rfl
  · intro evalO cands b m h
    refine ⟨{ attachMetrics b m with score := max (attachMetrics b m).score 95 }, ?_, ?_, ?_⟩
    · simp only [applyAdvancedQualityGates, h, advancedGateOnBest]
    · exact attachMetrics_method b m
    · exact attachMetrics_file b m

theorem quality_gate_fails_open_witness :
    applyPsnrQualityGate none (fun _ => none) []
        (some ⟨"balanced", ⟨[0]⟩, 50, 0, none, none, none⟩) =
      some ⟨"balanced", ⟨[0]⟩, 50, 0, none, none, none⟩ ∧
    (evaluateQuality defaultGateConfig true [] [] []).1 = true := by
  exact ⟨quality_gate_fails_open.1 none (fun _ => none) [] ⟨"balanced", ⟨[0]⟩, 50, 0, none, none, none⟩ rfl,
    quality_gate_fails_open.2.2.1 defaultGateConfig⟩

theorem trySaferStep_score (evalO : FileData → Bool × QMetrics) (alt : String)
    (fOpt : Option FileData) (b : BestResult)
    (h : trySaferStep evalO alt fOpt = some b) : b.score = 96 := by
  cases fOpt with
  | none => simp [trySaferStep] at h
  | some f =>
      simp only [trySaferStep] at h
      by_cases hp : (evalO f).1
      · rw [if_pos hp] at h
        have hb := Option.some.inj h
        rw [← hb, attachMetrics_score]
      · rw [if_neg hp] at h
        exact absurd h (by simp)

theorem trySaferAlternatives_score (evalO : FileData → Bool × QMetrics) (cands : List Cand)
    (alts : List String) (b : BestResult)
    (h : trySaferAlternatives evalO cands alts = some b) : b.score = 96 := by
  induction alts with
  | nil => simp [trySaferAlternatives] at h
  | cons a rest ih =>
      unfold trySaferAlternatives at h
      cases hs : trySaferStep evalO a (findAlt cands a) with
      | none => rw [hs] at h; exact ih h
      | some r =>
          rw [hs] at h
          have hb := Option.some.inj h
          rw [← hb]
          exact trySaferStep_score evalO a (findAlt cands a) r hs

theorem tryAltPsnrMeasure_score (t : ℚ) (alt : String) (f : FileData) (pOpt : Option ℚ)
    (b : BestResult) (h : tryAltPsnrMeasure t alt f pOpt = some b) : b.score = 96 := by
  cases pOpt with
  | none => simp [tryAltPsnrMeasure] at h
  | some p =>
      simp only [tryAltPsnrMeasure] at h
      by_cases hq : psnrPassedAt t p = true
      · rw [if_pos hq] at h
        have hb := Option.some.inj h
        rw [← hb]
      · rw [if_neg hq] at h
        exact absurd h (by simp)

theorem tryAltPsnrStep_score (t : ℚ) (alt : String) (psnrOf : FileData → Option ℚ)
    (fOpt : Option FileData) (b : BestResult)
    (h : tryAltPsnrStep t alt psnrOf fOpt = some b) : b.score = 96 := by
  cases fOpt with
  | none => simp [tryAltPsnrStep] at h
  | some f => exact tryAltPsnrMeasure_score t alt f (psnrOf f) b h

theorem tryAltsPsnr_score (psnrOf : FileData → Option ℚ) (cands : List Cand) (t : ℚ)
    (alts : List String) (b : BestResult)
    (h : tryAltsPsnr psnrOf cands t alts = some b) : b.score = 96 := by
  induction alts with
  | nil => simp [tryAltsPsnr] at h
  | cons a rest ih =>
      unfold tryAltsPsnr at h
      cases hs : tryAltPsnrStep t a psnrOf (findAlt cands a) with
      | none => rw [hs] at h; exact ih h
      | some r =>
          rw [hs] at h
          have hb := Option.some.inj h
          rw [← hb]
          exact tryAltPsnrStep_score t a psnrOf (findAlt cands a) r hs

/-- C10: whenever a quality gate accepts a candidate — the selected
candidate passing the gate or a fallback alternative recovering — the
resulting quality score is at least 95: the passing candidate's score is
raised to `max(score, 95.0)` and a recovered fallback is assigned 96.0.
For the PSNR gate this covers every outcome in which the PSNR was
actually measured; for the advanced gate it covers every non-`None`
outcome. -/
theorem accepted_candidate_score_at_least_95 :
    (∀ (evalO : FileData → Bool × QMetrics) (cands : List Cand) (b b' : BestResult),
        applyAdvancedQualityGates evalO cands (some b) = some b' → 95 ≤ b'.score) ∧
    (∀ (prof : Option Profile) (psnrOf : FileData → Option ℚ) (cands : List Cand)
        (b b' : BestResult) (p : ℚ), psnrOf b.file = some p →
        applyPsnrQualityGate prof psnrOf cands (some b) = some b' → 95 ≤ b'.score) := by
  constructor
  · intro evalO cands b b' h
    simp only [applyAdvancedQualityGates] at h
    cases he : evalO b.file with
    | mk passed m =>
        rw [he] at h
        cases passed with
        | true =>
            simp only [advancedGateOnBest] at h
            have hb := Option.some.inj h
            rw [← hb]
            exact le_max_right _ _
        | false =>
            simp only [advancedGateOnBest] at h
            rw [trySaferAlternatives_score evalO cands ["high_quality", "conservative"] b' h]
            norm_num
  · intro prof psnrOf cands b b' p hm h
    simp only [applyPsnrQualityGate, hm, psnrGateOnBest] at h
    by_cases hq : psnrGatePasses prof p = true
    · rw [if_pos hq] at h
      have hb := Option.some.inj h
      rw [← hb]
      exact le_max_right _ _
    · rw [if_neg hq] at h
      rw [tryAltsPsnr_score psnrOf cands (psnrThreshold prof)
        ["high_quality", "conservative"] b' h]
      norm_num

theorem accepted_candidate_score_witness :
    (95 : ℚ) ≤
      (⟨"balanced", ⟨[0]⟩, max (0 : ℚ) 95, 0, none, none, none⟩ : BestResult).score :=
  accepted_candidate_score_at_least_95.1 (fun _ => (true, emptyQMetrics)) []
    ⟨"balanced", ⟨[0]⟩, 0, 0, none, none, none⟩
    ⟨"balanced", ⟨[0]⟩, max (0 : ℚ) 95, 0, none, none, none⟩ rfl

theorem foldl_countPage_all_none (pages : List (Option Img)) (acc : ProfileCounts)
    (h : pages.all (fun x => x.isNone) = true) : pages.foldl countPage acc = acc := by
  induction pages generalizing acc with
  | nil => rfl
  | cons hd tl ih =>
      rw [List.all_cons, Bool.and_eq_true] at h
      cases hd with
      | none => exact ih acc h.2
      | some img => simp at h

/-- C8: the content profiler's aggregation over the successfully read
sample pages classifies the document as bitonal when at least 50% of the
pages are bitonal-like, else grayscale when at least 50% are
grayscale-like, else color; its mode is always one of exactly
{bitonal, grayscale, color}; and it returns `None` — not an error — when
no sample page could be read. -/
theorem content_profile_aggregation :
    (∀ (gsOk rasterOk npOk : Bool) (pages : List (Option Img)) (p : Profile),
        detectContentProfile gsOk rasterOk npOk pages = some p →
        (p.mode = Mode.bitonal ∨ p.mode = Mode.grayscale ∨ p.mode = Mode.color) ∧
        ((1 / 2 : ℚ) ≤ (p.counts.bitonalLike : ℚ) / (p.counts.total : ℚ) →
          p.mode = Mode.bitonal) ∧
        (¬(1 / 2 : ℚ) ≤ (p.counts.bitonalLike : ℚ) / (p.counts.total : ℚ) →
          (1 / 2 : ℚ) ≤ (p.counts.grayscaleLike : ℚ) / (p.counts.total : ℚ) →
          p.mode = Mode.grayscale) ∧
        (¬(1 / 2 : ℚ) ≤ (p.counts.bitonalLike : ℚ) / (p.counts.total : ℚ) →
          ¬(1 / 2 : ℚ) ≤ (p.counts.grayscaleLike : ℚ) / (p.counts.total : ℚ) →
          p.mode = Mode.color)) ∧
    (∀ (gsOk rasterOk npOk : Bool) (pages : List (Option Img)),
        pages.all (fun x => x.isNone) = true →
        detectContentProfile gsOk rasterOk npOk pages = none) := by
  constructor
  · intro gsOk rasterOk npOk pages p h
    unfold detectContentProfile at h
    split_ifs at h
    have hp := Option.some.inj h
    subst hp
    refine ⟨?_, ?_, ?_, ?_⟩
    · cases hc : classifyCounts (pages.foldl countPage ⟨0, 0, 0, 0⟩) <;> simp [hc]
    · intro hbit
      simp only [classifyCounts, if_pos hbit]
    · intro hnbit hgray
      simp only [classifyCounts, if_neg hnbit, if_pos hgray]
    · intro hnbit hngray
      simp only [classifyCounts, if_neg hnbit, if_neg hngray]
  · intro gsOk rasterOk npOk pages h
    unfold detectContentProfile
    split_ifs with h1 h2 h3 h4
    · rfl
    · rfl
    · rfl
    · rfl
    · rw [foldl_countPage_all_none pages ⟨0, 0, 0, 0⟩ h] at h4
      simp at h4

theorem findAlt_mem (cands : List Cand) (alt : String) (f : FileData)
    (h : findAlt cands alt = some f) :
    ∃ c ∈ cands, c.onDisk = true ∧ f = c.file := by
  unfold findAlt at h
  rw [Option.map_eq_some'] at h
  obtain ⟨c0, hfind, hfile⟩ := h
  have hmem := List.mem_of_find?_eq_some hfind
  have hpred := List.find?_some hfind
  rw [Bool.and_eq_true] at hpred
  exact ⟨c0, hmem, hpred.2, hfile.symm⟩

theorem tryAltPsnrMeasure_file (t : ℚ) (alt : String) (f : FileData) (pOpt : Option ℚ)
    (b : BestResult) (h : tryAltPsnrMeasure t alt f pOpt = some b) : b.file = f := by
  cases pOpt with
  | none => simp [tryAltPsnrMeasure] at h
  | some p =>
      simp only [tryAltPsnrMeasure] at h
      by_cases hq : psnrPassedAt t p = true
      · rw [if_pos hq] at h
        have hb := Option.some.inj h
        rw [← hb]
      · rw [if_neg hq] at h
        exact absurd h (by simp)

theorem tryAltsPsnr_mem (psnrOf : FileData → Option ℚ) (cands : List Cand) (t : ℚ)
    (alts : List String) (b : BestResult)
    (h : tryAltsPsnr psnrOf cands t alts = some b) :
    ∃ c ∈ cands, c.onDisk = true ∧ b.file = c.file := by
  induction alts with
  | nil => simp [tryAltsPsnr] at h
  | cons a rest ih =>
      unfold tryAltsPsnr at h
      cases hs : tryAltPsnrStep t a psnrOf (findAlt cands a) with
      | none => rw [hs] at h; exact ih h
      | some r =>
          rw [hs] at h
          have hb := Option.some.inj h
          cases hf : findAlt cands a with
          | none => rw [hf] at hs; simp [tryAltPsnrStep] at hs
          | some f =>
              rw [hf] at hs
              simp only [tryAltPsnrStep] at hs
              have hfile := tryAltPsnrMeasure_file t a f (psnrOf f) r hs
              obtain ⟨c, hc, hdisk, hfc⟩ := findAlt_mem cands a f hf
              exact ⟨c, hc, hdisk, by rw [← hb, hfile, hfc]⟩

theorem selectStep_fst_eq_or (origSize : Nat) (env : SelEnv) (acc : Option BestResult × ℚ)
    (c : Cand) (b : BestResult) (h : (selectStep origSize env acc c).1 = some b) :
    acc.1 = some b ∨ (c.onDisk = true ∧ b.file = c.file) := by
  unfold selectStep at h
  by_cases hd : c.onDisk = false
  · rw [if_pos hd] at h
    exact Or.inl h
  · rw [if_neg hd] at h
    by_cases hs : candScore origSize env c > acc.2
    · rw [if_pos hs] at h
      have hb := Option.some.inj h
      refine Or.inr ⟨by simpa using hd, ?_⟩
      rw [← hb]
    · rw [if_neg hs] at h
      exact Or.inl h

theorem foldl_selectStep_mem (origSize : Nat) (env : SelEnv) (cands : List Cand)
    (l : List Cand) (acc : Option BestResult × ℚ)
    (hl : ∀ c ∈ l, c ∈ cands)
    (hacc : ∀ b, acc.1 = some b → ∃ c ∈ cands, c.onDisk = true ∧ b.file = c.file) :
    ∀ b, (l.foldl (selectStep origSize env) acc).1 = some b →
      ∃ c ∈ cands, c.onDisk = true ∧ b.file = c.file := by
  induction l generalizing acc with
  | nil => exact hacc
  | cons hd tl ih =>
      intro b h
      rw [List.foldl_cons] at h
      refine ih (selectStep origSize env acc hd)
        (fun c hc => hl c (List.mem_cons_of_mem hd hc)) ?_ b h
      intro b' hb'
      rcases selectStep_fst_eq_or origSize env acc hd b' hb' with h1 | ⟨hdisk, hfile⟩
      · exact hacc b' h1
      · exact ⟨hd, hl hd (List.mem_cons_self hd tl), hdisk, hfile⟩

theorem selectBestResult_mem (orig : FileData) (env : SelEnv) (cands : List Cand)
    (b : BestResult) (h : selectBestResult orig env cands = some b) :
    ∃ c ∈ cands, c.onDisk = true ∧ b.file = c.file := by
  cases cands with
  | nil => simp [selectBestResult] at h
  | cons c0 rest =>
      simp only [selectBestResult] at h
      exact foldl_selectStep_mem orig.size env (c0 :: rest) (c0 :: rest) (none, -1)
        (fun c hc => hc) (fun b' hb' => by simp at hb') b h

theorem applyPsnrQualityGate_mem (prof : Option Profile) (psnrOf : FileData → Option ℚ)
    (cands : List Cand) (bOpt : Option BestResult) (b' : BestResult)
    (hb : ∀ b, bOpt = some b → ∃ c ∈ cands, c.onDisk = true ∧ b.file = c.file)
    (h : applyPsnrQualityGate prof psnrOf cands bOpt = some b') :
    ∃ c ∈ cands, c.onDisk = true ∧ b'.file = c.file := by
  cases bOpt with
  | none => simp [applyPsnrQualityGate] at h
  | some b =>
      simp only [applyPsnrQualityGate] at h
      cases hp : psnrOf b.file with
      | none =>
          rw [hp] at h
          simp only [psnrGateOnBest] at h
          have hbb := Option.some.inj h
          rw [← hbb]
          exact hb b rfl
      | some p =>
          rw [hp] at h
          simp only [psnrGateOnBest] at h
          by_cases hq : psnrGatePasses prof p = true
          · rw [if_pos hq] at h
            have hbb := Option.some.inj h
            obtain ⟨c, hc, hdisk, hfile⟩ := hb b rfl
            refine ⟨c, hc, hdisk, ?_⟩
            rw [← hbb]
            exact hfile
          · rw [if_neg hq] at h
            exact tryAltsPsnr_mem psnrOf cands (psnrThreshold prof)
              ["high_quality", "conservative"] b' h

/-- C1 (amended): the file written to the output path is either
byte-identical to the original — which is always the case on the
no-candidate and quality-rejected paths — or a byte copy of one of the
generated candidate files; it is not in general bounded by the original's
size, since a candidate larger than the original can win selection and
pass (or escape) the PSNR gate. -/
theorem output_is_original_or_a_candidate (orig : FileData) (env : SelEnv)
    (psnrOf : FileData → Option ℚ) (cands : List Cand) :
    ((compressPdfCore orig env psnrOf cands).finalBytes = orig.bytes ∨
      ∃ c ∈ cands, c.onDisk = true ∧
        (compressPdfCore orig env psnrOf cands).finalBytes = c.file.bytes) ∧
    (applyPsnrQualityGate env.profile psnrOf cands (selectBestResult orig env cands) = none →
      (compressPdfCore orig env psnrOf cands).finalBytes = orig.bytes) := by
  constructor
  · cases hg : applyPsnrQualityGate env.profile psnrOf cands (selectBestResult orig env cands)
      with
    | none =>
        left
        simp only [compressPdfCore, hg, compressOutput]
    | some b =>
        right
        obtain ⟨c, hc, hdisk, hfile⟩ := applyPsnrQualityGate_mem env.profile psnrOf cands
          (selectBestResult orig env cands) b
          (fun b0 hb0 => selectBestResult_mem orig env cands b0 hb0) hg
        refine ⟨c, hc, hdisk, ?_⟩
        simp only [compressPdfCore, hg, compressOutput]
        rw [hfile]
  · intro hg
    simp only [compressPdfCore, hg, compressOutput]

theorem output_preserved_witness :
    (compressPdfCore ⟨[7]⟩ ⟨none, fun _ => none, none, false, false⟩ (fun _ => none)
      []).finalBytes = [7] :=
  (output_is_original_or_a_candidate ⟨[7]⟩ ⟨none, fun _ => none, none, false, false⟩
    (fun _ => none) []).2 rfl

/-- C1 counterexample: the claim that the output is always no larger than
the original or byte-identical to it is false.  With a single
`conservative` candidate of 3 bytes against a 2-byte original and an
unmeasurable PSNR, the candidate's score is zeroed (negative reduction)
but still exceeds the initial best score −1.0, so it is selected, the
gate fails open, and the 3-byte candidate — neither smaller than nor
identical to the original — is written to the output path. -/
theorem output_can_exceed_original :
    FileData.size ⟨[0, 0]⟩ <
      (compressPdfCore ⟨[0, 0]⟩ ⟨none, fun _ => none, none, false, false⟩ (fun _ => none)
        [⟨"conservative", ⟨[0, 0, 0]⟩, true, "t1"⟩]).finalBytes.length ∧
    (compressPdfCore ⟨[0, 0]⟩ ⟨none, fun _ => none, none, false, false⟩ (fun _ => none)
        [⟨"conservative", ⟨[0, 0, 0]⟩, true, "t1"⟩]).finalBytes ≠ [0, 0] := by
  have hval : (compressPdfCore ⟨[0, 0]⟩ ⟨none, fun _ => none, none, false, false⟩
      (fun _ => none) [⟨"conservative", ⟨[0, 0, 0]⟩, true, "t1"⟩]).finalBytes = [0, 0, 0] := by
    norm_num [compressPdfCore, compressOutput, selectBestResult, selectStep, candScore,
      reductionPercent, FileData.size, heuristicScore, applyStrategyPrior, truthy,
      sharpnessAdjust, contentBoost, advancedBoost, profGrayOrBitonal,
      applyPsnrQualityGate, psnrGateOnBest]
  rw [hval]
  constructor
  · norm_num [FileData.size]
  · simp

theorem content_profile_aggregation_witness :
    (⟨Mode.bitonal, ⟨0, 1, 1, 1⟩⟩ : Profile).mode = Mode.bitonal ∧
    detectContentProfile true true true [none, none] = none := by
  constructor
  · exact (content_profile_aggregation.1 true true true [some [⟨0, 0, 0⟩]]
      ⟨Mode.bitonal, ⟨0, 1, 1, 1⟩⟩ (by
        norm_num [detectContentProfile, countPage, colorfulness, isBitonalLike, luma,
          classifyCounts])).2.1 (by norm_num)
  · exact content_profile_aggregation.2 true true true [none, none] rfl

theorem cleanupTemps_map_path (cands : List Cand) :
    cleanupTemps (cands.map (fun c => c.path)) cands = [] := by
  unfold cleanupTemps
  rw [List.filter_eq_nil_iff]
  intro p hp
  rw [List.mem_map] at hp
  obtain ⟨c, hc, hcp⟩ := hp
  simp only [Bool.not_eq_true', Bool.not_eq_false, List.any_eq_true]
  exact ⟨c, hc, by rw [hcp]; exact beq_self_eq_true p⟩

/-- C7 (amended): on the success and preserved (gate-failure) exit paths
the cleanup loop deletes every candidate temp file, after the final
output's contents have been copied out; on the exception exit path,
however, the `except` handler returns without running the cleanup loop,
so the candidate temp files survive. -/
theorem temps_deleted_on_normal_exit (orig : FileData) (env : SelEnv)
    (psnrOf : FileData → Option ℚ) (cands : List Cand) :
    (compressPdfWithTemps orig env psnrOf cands false).2 = [] ∧
    (compressPdfWithTemps orig env psnrOf cands false).1 =
      RunOutcome.ok (compressPdfCore orig env psnrOf cands) := by
  exact ⟨cleanupTemps_map_path cands, rfl⟩

/-- C7 counterexample: the claim that every temporary candidate file is
deleted on every exit path, including the exception path, is false — when
an exception is raised inside the processing block of `compress_pdf`, the
`except` handler returns the error record without running the cleanup
loop, and the candidate temp file remains. -/
theorem temp_survives_exception :
    (compressPdfWithTemps ⟨[0]⟩ ⟨none, fun _ => none, none, false, false⟩ (fun _ => none)
      [⟨"conservative", ⟨[0]⟩, true, "tmp_conservative"⟩] true).2 = ["tmp_conservative"] ∧
    ("tmp_conservative" :: ([] : List String)) ≠ [] := by
  exact ⟨rfl, by simp⟩
